import Mathlib

/-!
Verification development for the heimdall-vision acquisition pipeline
(crate `heimdall-pipeline`). The Rust sources are embedded shallowly:

* `buffer.rs`   — `ImageSlot`, `LockFreeRingBuffer` and its operations
  `reserve_write_slot`, `force_advance_tail`, `commit_write`, `read_slot`,
  `commit_read`, `reset`;
* `timestamp.rs` — the `Timestamp` triple and its derived lexicographic
  ordering, `diff_nanos` / `diff_millis`;
* `pipeline.rs` — the `AcquisitionPipeline` constructor validation, the
  lifecycle state machine, and the desync-recovery check of the
  processing-task body;
* `metrics.rs`  — `PipelineMetrics`, its record operations and `get_stats`
  with the `MetricExt` read-back stubs.

Machine integers (`u64`, `usize`) are modelled as `Nat`: every mutation in the
embedded code is a `+ 1` or a guarded `- 1` (the guards are stated at each
site), so no wrap-around at `2 ^ 64` is reachable in the traces the theorems
quantify over.  `f64` values that the claims touch (gauges, rates) are
modelled as `Rat`; the claims about them only test zero / non-zero, not
floating-point rounding.  Atomics are modelled as plain fields: the claims are
stated at quiescence (sequential, no operation in flight).
-/

namespace Heimdall

/-! ## buffer.rs: ImageSlot and LockFreeRingBuffer -/

/-- A slot of the ring (`ImageSlot`, buffer.rs lines 12-39).  Only the fields
the embedded operations touch are carried: `sequence` (set by `commit_write`)
and `valid` (the publication flag).  The pixel fields (`data`, `size`,
`width`, `height`, `format`, `timestamp`, `metadata`) are mutated through the
reference `reserve_write_slot` returns, outside the buffer operations
themselves, and no claim mentions them. -/
structure ImageSlot where
  sequence : Nat
  valid : Bool
deriving DecidableEq, Repr

/-- `ImageSlot::new` followed by `reset` (buffer.rs lines 43-66): all fields
zeroed, `valid` false. -/
def ImageSlot.fresh : ImageSlot := { sequence := 0, valid := false }

/-- Overflow strategies (`OverflowStrategy`, lib.rs). -/
inductive OverflowStrategy where
  | Block
  | DropOldest
  | DropNewest
  | Resize
deriving DecidableEq, Repr

/-- `LockFreeRingBuffer` (buffer.rs lines 70-100).  `head` and `tail` are the
monotonically increasing indices (taken modulo `capacity` on access);
`size` the element count; `produced` / `consumed` / `dropped` the lifetime
counters.  `slots` always has length `capacity` (established by `new`,
preserved by every operation). -/
structure LockFreeRingBuffer where
  slots : List ImageSlot
  capacity : Nat
  head : Nat
  tail : Nat
  size : Nat
  produced : Nat
  consumed : Nat
  dropped : Nat
  overflowStrategy : OverflowStrategy
  maxImageSize : Nat
deriving DecidableEq, Repr

namespace LockFreeRingBuffer

/-- `LockFreeRingBuffer::new` (buffer.rs lines 104-124). -/
def new (capacity maxImageSize : Nat) (strategy : OverflowStrategy) :
    LockFreeRingBuffer :=
  { slots := List.replicate capacity ImageSlot.fresh
    capacity := capacity
    head := 0
    tail := 0
    size := 0
    produced := 0
    consumed := 0
    dropped := 0
    overflowStrategy := strategy
    maxImageSize := maxImageSize }

/-- `len()` (buffer.rs line 132). -/
def len (b : LockFreeRingBuffer) : Nat := b.size

/-- `is_empty()` (buffer.rs line 137). -/
def is_empty (b : LockFreeRingBuffer) : Bool := b.len = 0

/-- `is_full()` (buffer.rs line 142): `len() >= capacity`. -/
def is_full (b : LockFreeRingBuffer) : Bool := b.capacity ≤ b.len

/-- `produced_count()` (buffer.rs line 147). -/
def produced_count (b : LockFreeRingBuffer) : Nat := b.produced

/-- `consumed_count()` (buffer.rs line 152). -/
def consumed_count (b : LockFreeRingBuffer) : Nat := b.consumed

/-- `dropped_count()` (buffer.rs line 157). -/
def dropped_count (b : LockFreeRingBuffer) : Nat := b.dropped

/-- Replace the slot at index `i` by `f` of it; out-of-range leaves the list
unchanged (in the source an out-of-range `slots[i]` would panic, and every
caller passes an in-range `head % capacity` or `tail % capacity`). -/
def modifySlot : List ImageSlot → Nat → (ImageSlot → ImageSlot) → List ImageSlot
  | [], _, _ => []
  | s :: rest, 0, f => f s :: rest
  | s :: rest, n + 1, f => s :: modifySlot rest n f

/-- `force_advance_tail` (buffer.rs lines 217-238): invalidate the slot at
`tail % capacity`, advance `tail`, decrement `size`, increment `dropped`.
The source reaches it only from `reserve_write_slot` with
`size ≥ capacity ≥ 1`, so `size - 1` does not underflow there. -/
def force_advance_tail (b : LockFreeRingBuffer) : LockFreeRingBuffer :=
  let slot_index := b.tail % b.capacity
  { b with
    slots := modifySlot b.slots slot_index (fun s => { s with valid := false })
    tail := b.tail + 1
    size := b.size - 1
    dropped := b.dropped + 1 }

/-- The unconditional part of `reserve_write_slot` after the overflow branch
(buffer.rs lines 186-213): swap a fresh slot in at `head % capacity`, advance
`head`, increment `size` and `produced`, return the slot index. -/
def reserveProceed (b : LockFreeRingBuffer) : LockFreeRingBuffer × Option Nat :=
  let slot_index := b.head % b.capacity
  ({ b with
     slots := modifySlot b.slots slot_index (fun _ => ImageSlot.fresh)
     head := b.head + 1
     size := b.size + 1
     produced := b.produced + 1 },
   some slot_index)

/-- `reserve_write_slot` (buffer.rs lines 162-214).  `none` models the `Err`
returns (`BufferError`); the first component is the buffer state after the
call. -/
def reserve_write_slot (b : LockFreeRingBuffer) :
    LockFreeRingBuffer × Option Nat :=
  if b.capacity ≤ b.size then
    match b.overflowStrategy with
    | OverflowStrategy.Block => (b, none)
    | OverflowStrategy.DropNewest => ({ b with dropped := b.dropped + 1 }, none)
    | OverflowStrategy.DropOldest => reserveProceed (force_advance_tail b)
    | OverflowStrategy.Resize => (b, none)
  else
    reserveProceed b

/-- `commit_write` (buffer.rs lines 241-260): store the sequence into the
slot and set its valid flag (release).  No counter is touched. -/
def commit_write (b : LockFreeRingBuffer) (slot_index sequence : Nat) :
    LockFreeRingBuffer :=
  { b with
    slots := modifySlot b.slots slot_index
      (fun s => { s with sequence := sequence, valid := true }) }

/-- `read_slot` (buffer.rs lines 263-288): error when empty or when the slot
at `tail % capacity` is not valid; otherwise the slot index. -/
def read_slot (b : LockFreeRingBuffer) : Option Nat :=
  if b.size = 0 then none
  else
    let slot_index := b.tail % b.capacity
    if ((b.slots.getD slot_index ImageSlot.fresh).valid) then some slot_index
    else none

/-- `commit_read` (buffer.rs lines 291-310): clear the valid flag, advance
`tail`, decrement `size`, increment `consumed`.  The pipeline calls it only
with the index of a successful `read_slot`, whose `size ≠ 0` guard rules out
underflow of `size - 1`. -/
def commit_read (b : LockFreeRingBuffer) (slot_index : Nat) :
    LockFreeRingBuffer :=
  { b with
    slots := modifySlot b.slots slot_index (fun s => { s with valid := false })
    tail := b.tail + 1
    size := b.size - 1
    consumed := b.consumed + 1 }

/-- `reset` (buffer.rs lines 313-331): zero `head`, `tail`, `size` and clear
every slot's valid flag; the lifetime counters are not touched.  The source
loop runs over indices `0..capacity`, which is exactly the slot list. -/
def reset (b : LockFreeRingBuffer) : LockFreeRingBuffer :=
  { b with
    head := 0
    tail := 0
    size := 0
    slots := b.slots.map (fun s => { s with valid := false }) }

end LockFreeRingBuffer

/-! ## Quiescent operation traces over the buffer

A trace is a finite sequence of the four public operations, executed
sequentially (the claims are stated at quiescence).  `commitRead` models the
consumer's call pattern (the processing task, pipeline.rs lines 442-465, and
every test in buffer.rs): `commit_read(i)` is invoked exactly when the
immediately preceding `read_slot` returned `Ok(i)`; on an empty or invalid
slot the consumer does not commit. -/

inductive BufOp where
  | reserve
  | commitWrite (slot_index sequence : Nat)
  | readSlot
  | commitRead
deriving DecidableEq, Repr

open LockFreeRingBuffer in
/-- One operation's effect on the buffer state.  `readSlot` does not mutate
the buffer; `commitRead` applies `commit_read` to the index a successful
`read_slot` returns, and is a no-op when `read_slot` errors (the consumer
only retries then). -/
def stepOp (b : LockFreeRingBuffer) : BufOp → LockFreeRingBuffer
  | BufOp.reserve => (reserve_write_slot b).1
  | BufOp.commitWrite i seq => commit_write b i seq
  | BufOp.readSlot => b
  | BufOp.commitRead =>
    match read_slot b with
    | some i => commit_read b i
    | none => b

/-- Run a trace of operations from a buffer state. -/
def execTrace (b : LockFreeRingBuffer) : List BufOp → LockFreeRingBuffer
  | [] => b
  | op :: ops => execTrace (stepOp b op) ops

/-- 1 when this operation is a reservation rejected by the `DropNewest`
branch (buffer.rs lines 170-174): the buffer is full and the strategy is
`DropNewest`, so `dropped` is incremented for a frame that was never
produced. -/
def rejectOne (b : LockFreeRingBuffer) : BufOp → Nat
  | BufOp.reserve =>
    if b.overflowStrategy = OverflowStrategy.DropNewest ∧ b.capacity ≤ b.size
    then 1 else 0
  | _ => 0

/-- The number of `DropNewest`-rejected reservations along a trace. -/
def rejectedNewest (b : LockFreeRingBuffer) : List BufOp → Nat
  | [] => 0
  | op :: ops => rejectOne b op + rejectedNewest (stepOp b op) ops

example :
    (execTrace (LockFreeRingBuffer.new 2 8 OverflowStrategy.DropOldest)
      [BufOp.reserve, BufOp.commitWrite 0 1, BufOp.readSlot,
       BufOp.commitRead]).consumed = 1 := by decide

example :
    (execTrace (LockFreeRingBuffer.new 1 8 OverflowStrategy.DropNewest)
      [BufOp.reserve, BufOp.commitWrite 0 1, BufOp.reserve]).dropped = 1 := by
  decide

/-! ## timestamp.rs: Timestamp -/

/-- `Timestamp` (timestamp.rs lines 10-19): seconds since the UNIX epoch,
subsecond nanoseconds, and the global monotonic counter drawn from
`GLOBAL_COUNTER.fetch_add(1, SeqCst)` at creation.  `u64` / `u32` fields are
modelled as `Nat`. -/
structure Timestamp where
  seconds : Nat
  nanoseconds : Nat
  monotonic_counter : Nat
deriving DecidableEq, Repr

namespace Timestamp

/-- The ordering `#[derive(PartialOrd, Ord)]` produces on `Timestamp`
(timestamp.rs line 9): lexicographic in declaration order — `seconds`, then
`nanoseconds`, then `monotonic_counter`. -/
def cmp (a b : Timestamp) : Ordering :=
  (compare a.seconds b.seconds).then
    ((compare a.nanoseconds b.nanoseconds).then
      (compare a.monotonic_counter b.monotonic_counter))

/-- `diff_nanos` (timestamp.rs lines 94-98): signed difference of the
wall-clock parts in nanoseconds (`i64` arithmetic, modelled as `Int`). -/
def diff_nanos (a b : Timestamp) : Int :=
  ((a.seconds : Int) * 1000000000 + (a.nanoseconds : Int)) -
    ((b.seconds : Int) * 1000000000 + (b.nanoseconds : Int))

/-- `diff_millis` (timestamp.rs lines 106-108): `diff_nanos / 1_000_000`
with Rust `i64` division, which truncates toward zero (`Int.tdiv`). -/
def diff_millis (a b : Timestamp) : Int :=
  (diff_nanos a b).tdiv 1000000

end Timestamp

/-! ## lib.rs / pipeline.rs: configuration, errors, constructor validation -/

/-- The kinds of `PipelineError` (lib.rs). -/
inductive PipelineErrorKind where
  | InitError
  | ConfigError
  | AcquisitionError
  | BufferError
  | SyncError
  | TimeoutError
  | ProcessingError
  | CameraError
  | RtError
deriving DecidableEq, Repr

/-- The fields of `PipelineConfig` (lib.rs) that `AcquisitionPipeline::new`
and the task bodies consult.  The thread counts, priorities, affinities and
intervals are threaded through to the scheduler unvalidated and unread by the
embedded operations, so they are not carried. -/
structure PipelineConfig where
  buffer_capacity : Nat
  max_image_size : Nat
  enable_auto_recovery : Bool
  overflow_strategy : OverflowStrategy
deriving DecidableEq, Repr

/-- `AcquisitionPipeline::new` (pipeline.rs lines 132-171): reject a zero
`buffer_capacity` or a zero `max_image_size` with a `ConfigError`; otherwise
build the ring buffer from the configuration (state `Uninitialized`, empty
task lists and callback registry — the buffer is the state the claims
observe).  No other field of the configuration is validated. -/
def AcquisitionPipeline.new (config : PipelineConfig) :
    Except PipelineErrorKind LockFreeRingBuffer :=
  if config.buffer_capacity = 0 then
    Except.error PipelineErrorKind.ConfigError
  else if config.max_image_size = 0 then
    Except.error PipelineErrorKind.ConfigError
  else
    Except.ok (LockFreeRingBuffer.new config.buffer_capacity
      config.max_image_size config.overflow_strategy)

/-- `PipelineState` (lib.rs). -/
inductive PipelineState where
  | Uninitialized
  | Ready
  | Running
  | Paused
  | Stopped
  | Error
deriving DecidableEq, Repr

namespace AcquisitionPipeline

/-!
The four lifecycle methods (pipeline.rs) each first read `self.state` and
return an error — without touching the state — when it is not an allowed
source state; they then perform camera / task / scheduler work that can
itself fail (again returning before the state is written) and only on full
success write the target state.  Each method is modelled as a function of the
current state and a flag `ok` that abstracts the success of that external
work; `none` models an error return, under which `self.state` is unchanged.
-/

/-- `initialize` (pipeline.rs lines 174-204): only from `Uninitialized`,
target `Ready`. -/
def initStep (s : PipelineState) (ok : Bool) : Option PipelineState :=
  if s ≠ PipelineState.Uninitialized then none
  else if ok then some PipelineState.Ready else none

/-- `start` (pipeline.rs lines 568-602): only from `Ready` or `Paused`,
target `Running`. -/
def startStep (s : PipelineState) (ok : Bool) : Option PipelineState :=
  if s ≠ PipelineState.Ready ∧ s ≠ PipelineState.Paused then none
  else if ok then some PipelineState.Running else none

/-- `pause` (pipeline.rs lines 605-636): only from `Running`, target
`Paused`. -/
def pauseStep (s : PipelineState) (ok : Bool) : Option PipelineState :=
  if s ≠ PipelineState.Running then none
  else if ok then some PipelineState.Paused else none

/-- `stop` (pipeline.rs lines 639-676): only from `Running` or `Paused`,
target `Stopped`. -/
def stopStep (s : PipelineState) (ok : Bool) : Option PipelineState :=
  if s ≠ PipelineState.Running ∧ s ≠ PipelineState.Paused then none
  else if ok then some PipelineState.Stopped else none

end AcquisitionPipeline

/-- The desync-recovery check in the empty-buffer branch of the
processing-task body (pipeline.rs lines 471-492), after the 1 ms sleep.
The closure captures the pipeline's `last_acquisition` and `last_processing`
mutexes; the source binds BOTH local variables from `last_processing`
(`let last_acq = last_processing.lock().unwrap(); let last_proc =
last_processing.lock().unwrap();`), so the `_lastAcquisition` argument —
passed here so the claims can be stated against it — is never read.  When the computed spread exceeds
1000 ms the buffer is reset and `desync_events` / `recovery_events` are
incremented; the result is the buffer and the two counters. -/
def processingEmptyRecovery (enable_auto_recovery : Bool)
    (_lastAcquisition lastProcessing : Option Timestamp)
    (b : LockFreeRingBuffer) (desync_events recovery_events : Nat) :
    LockFreeRingBuffer × Nat × Nat :=
  if enable_auto_recovery then
    let last_acq := lastProcessing
    let last_proc := lastProcessing
    match last_acq, last_proc with
    | some acq, some proc =>
      if 1000 < (Timestamp.diff_millis acq proc).natAbs then
        (b.reset, desync_events + 1, recovery_events + 1)
      else
        (b, desync_events, recovery_events)
    | _, _ => (b, desync_events, recovery_events)
  else
    (b, desync_events, recovery_events)

/-! ## metrics.rs: PipelineMetrics -/

/-- `METRICS_WINDOW_SECONDS` (metrics.rs line 11). -/
def METRICS_WINDOW_SECONDS : Nat := 60

/-- The `MetricExt::get_counter` stub (metrics.rs lines 275-282): the
read-back helper for a `Counter` ignores the counter and returns 0 (the
method does not exist in the metrics-rs public API). -/
def MetricExt.get_counter (_c : Nat) : Nat := 0

/-- The `MetricExt::get_gauge` stub (metrics.rs lines 284-291): the read-back
helper for a `Gauge` ignores the gauge and returns 0.0. -/
def MetricExt.get_gauge (_g : Rat) : Rat := 0

/-- The state of `PipelineMetrics` (metrics.rs lines 17-62).  The counter
fields hold the values the metrics-rs registry accumulates through
`Counter::increment`; the gauge fields the last `Gauge::set`; the histories
are modelled by the number of events currently in the 60 s window (each
record appends one; the time-based pruning removes none within a quiescent
run, wall-clock time being outside the model).  Latency histograms are not
carried: `get_stats` never reads them. -/
structure PipelineMetrics where
  frames_acquired : Nat
  frames_processed : Nat
  frames_dropped : Nat
  buffer_overflows : Nat
  desync_events : Nat
  recovery_events : Nat
  buffer_usage : Rat
  acquisition_history : Nat
  processing_history : Nat
deriving DecidableEq, Repr

namespace PipelineMetrics

/-- `PipelineMetrics::new` (metrics.rs lines 66-101): counters start at 0,
gauges at 0, histories empty. -/
def new : PipelineMetrics :=
  { frames_acquired := 0
    frames_processed := 0
    frames_dropped := 0
    buffer_overflows := 0
    desync_events := 0
    recovery_events := 0
    buffer_usage := 0
    acquisition_history := 0
    processing_history := 0 }

end PipelineMetrics

/-- The recording calls of `PipelineMetrics` (metrics.rs lines 104-191).
The `latency_ms` arguments only feed the histograms, which `get_stats` never
reads, so they are not carried. -/
inductive MetricOp where
  | recordAcquisition
  | recordProcessing
  | recordDroppedFrame
  | recordBufferOverflow
  | recordDesync
  | recordRecovery
  | updateBufferUsage (used capacity : Nat)
deriving DecidableEq, Repr

/-- One recording call's effect on the metrics state (metrics.rs lines
104-191): each `record_*` increments its counter; `record_acquisition` /
`record_processing` also append to their history; `update_buffer_usage` sets
the gauge to `used / capacity * 100` (0 when the capacity is 0). -/
def applyMetricOp (m : PipelineMetrics) : MetricOp → PipelineMetrics
  | MetricOp.recordAcquisition =>
    { m with frames_acquired := m.frames_acquired + 1
             acquisition_history := m.acquisition_history + 1 }
  | MetricOp.recordProcessing =>
    { m with frames_processed := m.frames_processed + 1
             processing_history := m.processing_history + 1 }
  | MetricOp.recordDroppedFrame =>
    { m with frames_dropped := m.frames_dropped + 1 }
  | MetricOp.recordBufferOverflow =>
    { m with buffer_overflows := m.buffer_overflows + 1 }
  | MetricOp.recordDesync =>
    { m with desync_events := m.desync_events + 1 }
  | MetricOp.recordRecovery =>
    { m with recovery_events := m.recovery_events + 1 }
  | MetricOp.updateBufferUsage used capacity =>
    { m with buffer_usage :=
      if 0 < capacity then (used : Rat) / (capacity : Rat) * 100 else 0 }

/-- `PipelineStats` (lib.rs), without the `last_update` wall-clock field. -/
structure PipelineStats where
  total_frames_acquired : Nat
  total_frames_processed : Nat
  total_frames_dropped : Nat
  buffer_overflows : Nat
  desync_events : Nat
  recovery_events : Nat
  avg_acquisition_rate : Rat
  avg_processing_rate : Rat
  avg_acquisition_latency : Rat
  avg_processing_latency : Rat
  avg_buffer_usage : Rat
deriving DecidableEq, Repr

/-- `PipelineMetrics::get_stats` (metrics.rs lines 218-239): the totals go
through the `MetricExt::get_counter` stub; the two rates are the history
lengths over the 60 s window; the two average latencies are the literal 0.0
of the source; `avg_buffer_usage` goes through the `MetricExt::get_gauge`
stub. -/
def get_stats (m : PipelineMetrics) : PipelineStats :=
  { total_frames_acquired := MetricExt.get_counter m.frames_acquired
    total_frames_processed := MetricExt.get_counter m.frames_processed
    total_frames_dropped := MetricExt.get_counter m.frames_dropped
    buffer_overflows := MetricExt.get_counter m.buffer_overflows
    desync_events := MetricExt.get_counter m.desync_events
    recovery_events := MetricExt.get_counter m.recovery_events
    avg_acquisition_rate :=
      (m.acquisition_history : Rat) / (METRICS_WINDOW_SECONDS : Rat)
    avg_processing_rate :=
      (m.processing_history : Rat) / (METRICS_WINDOW_SECONDS : Rat)
    avg_acquisition_latency := 0
    avg_processing_latency := 0
    avg_buffer_usage := MetricExt.get_gauge m.buffer_usage }

/-- The number of `record_acquisition` calls in a list of recording calls. -/
def countAcquisitions : List MetricOp → Nat
  | [] => 0
  | MetricOp.recordAcquisition :: ops => countAcquisitions ops + 1
  | _ :: ops => countAcquisitions ops

/-- The number of `record_processing` calls in a list of recording calls. -/
def countProcessings : List MetricOp → Nat
  | [] => 0
  | MetricOp.recordProcessing :: ops => countProcessings ops + 1
  | _ :: ops => countProcessings ops

/-! ## Helper lemmas -/

open LockFreeRingBuffer

lemma modifySlot_get (l : List ImageSlot) (i : Nat) (f : ImageSlot → ImageSlot) :
    (modifySlot l i f).get? i = (l.get? i).map f := by
  induction l generalizing i with
  | nil => simp [modifySlot]
  | cons s rest ih =>
    cases i with
    | zero => simp [modifySlot]
    | succ n => simpa [modifySlot] using ih n

lemma reserve_write_slot_capacity (b : LockFreeRingBuffer) :
    (b.reserve_write_slot).1.capacity = b.capacity := by
  unfold reserve_write_slot
  split
  · split <;> rfl
  · rfl

lemma stepOp_capacity (b : LockFreeRingBuffer) (op : BufOp) :
    (stepOp b op).capacity = b.capacity := by
  cases op with
  | reserve => exact reserve_write_slot_capacity b
  | commitWrite i seq => rfl
  | readSlot => rfl
  | commitRead =>
    simp only [stepOp]
    split <;> rfl

/-- The counter ledger: `produced + r` balances `consumed + dropped + size`
where `r` counts the reservations the `DropNewest` branch has rejected so
far. -/
def Balanced (b : LockFreeRingBuffer) (r : Nat) : Prop :=
  b.produced + r = b.consumed + b.dropped + b.size

lemma read_slot_size_pos {b : LockFreeRingBuffer} {i : Nat}
    (h : b.read_slot = some i) : b.size ≠ 0 := by
  intro h0
  unfold read_slot at h
  simp [h0] at h

lemma stepOp_balanced (b : LockFreeRingBuffer) (r : Nat) (op : BufOp)
    (hc : 1 ≤ b.capacity) (hb : Balanced b r) :
    Balanced (stepOp b op) (r + rejectOne b op) := by
  cases op with
  | commitWrite i seq =>
    simpa [stepOp, commit_write, Balanced, rejectOne] using hb
  | readSlot =>
    simpa [stepOp, Balanced, rejectOne] using hb
  | commitRead =>
    simp only [stepOp]
    cases hrd : b.read_slot with
    | none => simpa [Balanced, rejectOne] using hb
    | some i =>
      have hsz : b.size ≠ 0 := read_slot_size_pos hrd
      simp only [Balanced, commit_read, rejectOne] at hb ⊢
      omega
  | reserve =>
    simp only [stepOp, reserve_write_slot, rejectOne]
    by_cases hfull : b.capacity ≤ b.size
    · simp only [if_pos hfull]
      cases hstrat : b.overflowStrategy with
      | Block =>
        simp only [Balanced, hstrat] at hb ⊢
        simp
        omega
      | DropNewest =>
        simp only [Balanced, hstrat] at hb ⊢
        simp [hfull]
        omega
      | DropOldest =>
        simp only [Balanced, hstrat, reserveProceed, force_advance_tail]
          at hb ⊢
        simp
        omega
      | Resize =>
        simp only [Balanced, hstrat] at hb ⊢
        simp
        omega
    · simp only [if_neg hfull, reserveProceed]
      simp only [Balanced] at hb ⊢
      have : ¬ (b.overflowStrategy = OverflowStrategy.DropNewest
          ∧ b.capacity ≤ b.size) := fun h => hfull h.2
      simp [this]
      omega

lemma execTrace_balanced :
    ∀ (ops : List BufOp) (b : LockFreeRingBuffer) (r : Nat),
      1 ≤ b.capacity → Balanced b r →
      Balanced (execTrace b ops) (r + rejectedNewest b ops) := by
  intro ops
  induction ops with
  | nil =>
    intro b r hc hb
    simpa [execTrace, rejectedNewest] using hb
  | cons op ops ih =>
    intro b r hc hb
    have hc2 : 1 ≤ (stepOp b op).capacity := by
      rw [stepOp_capacity]; exact hc
    have h := ih (stepOp b op) (r + rejectOne b op) hc2
      (stepOp_balanced b r op hc hb)
    simpa [execTrace, rejectedNewest, Nat.add_assoc] using h

/-! ## Concrete states used by counterexamples and witnesses -/

/-- A capacity-1 `DropOldest` buffer holding one committed frame (full). -/
def fullDropOldestBuffer : LockFreeRingBuffer :=
  execTrace (LockFreeRingBuffer.new 1 8 OverflowStrategy.DropOldest)
    [BufOp.reserve, BufOp.commitWrite 0 1]

/-- A capacity-1 `DropNewest` buffer holding one committed frame (full). -/
def fullDropNewestBuffer : LockFreeRingBuffer :=
  execTrace (LockFreeRingBuffer.new 1 8 OverflowStrategy.DropNewest)
    [BufOp.reserve, BufOp.commitWrite 0 1]

/-- A capacity-1 `Resize` buffer holding one reserved frame (full). -/
def fullResizeBuffer : LockFreeRingBuffer :=
  execTrace (LockFreeRingBuffer.new 1 8 OverflowStrategy.Resize)
    [BufOp.reserve]

/-- A nonempty capacity-4 buffer: one reserved slot, so `reset` would
change it. -/
def desyncDemoBuffer : LockFreeRingBuffer :=
  execTrace (LockFreeRingBuffer.new 4 8 OverflowStrategy.DropOldest)
    [BufOp.reserve]

/-- A `PipelineConfig` with the `Resize` overflow strategy and otherwise
valid fields. -/
def resizeConfig : PipelineConfig :=
  { buffer_capacity := 4
    max_image_size := 1024
    enable_auto_recovery := true
    overflow_strategy := OverflowStrategy.Resize }

/-! ## Claim theorems -/

/-- C1, counterexample: under `DropNewest`, the trace reserve / commit /
reserve on a capacity-1 buffer leaves `produced = 1` but
`consumed + dropped + len = 0 + 1 + 1 = 2`: the rejected reservation
increments `dropped` without a matching `produced`, so the claimed equation
`produced_count = consumed_count + dropped_count + len` fails at quiescence
under the `DropNewest` strategy. -/
theorem C1_counterexample_dropnewest :
    ¬ ((execTrace (LockFreeRingBuffer.new 1 8 OverflowStrategy.DropNewest)
          [BufOp.reserve, BufOp.commitWrite 0 1, BufOp.reserve]).produced_count
        = (execTrace (LockFreeRingBuffer.new 1 8 OverflowStrategy.DropNewest)
            [BufOp.reserve, BufOp.commitWrite 0 1, BufOp.reserve]).consumed_count
          + (execTrace (LockFreeRingBuffer.new 1 8 OverflowStrategy.DropNewest)
              [BufOp.reserve, BufOp.commitWrite 0 1, BufOp.reserve]).dropped_count
          + (execTrace (LockFreeRingBuffer.new 1 8 OverflowStrategy.DropNewest)
              [BufOp.reserve, BufOp.commitWrite 0 1, BufOp.reserve]).len) := by
  decide

/-- C1, amended: for every finite quiescent sequence of buffer operations on
a fresh buffer of capacity ≥ 1, under every overflow strategy,
`produced_count + (number of DropNewest-rejected reservations)
= consumed_count + dropped_count + len`.  For `Block`, `DropOldest` and
`Resize` no reservation is `DropNewest`-rejected, so the claimed equation
`produced_count = consumed_count + dropped_count + len` holds as stated;
under `DropNewest` each rejected reservation increments `dropped_count`
without producing, and the equation must be offset by that count. -/
theorem C1_quiescent_ledger_amended (capacity maxImageSize : Nat)
    (strategy : OverflowStrategy) (ops : List BufOp) (hcap : 1 ≤ capacity) :
    (execTrace (LockFreeRingBuffer.new capacity maxImageSize strategy)
        ops).produced_count
      + rejectedNewest (LockFreeRingBuffer.new capacity maxImageSize strategy)
          ops
    = (execTrace (LockFreeRingBuffer.new capacity maxImageSize strategy)
        ops).consumed_count
      + (execTrace (LockFreeRingBuffer.new capacity maxImageSize strategy)
          ops).dropped_count
      + (execTrace (LockFreeRingBuffer.new capacity maxImageSize strategy)
          ops).len := by
  have h0 : Balanced (LockFreeRingBuffer.new capacity maxImageSize strategy)
      0 := by
    simp [Balanced, LockFreeRingBuffer.new]
  have hc : 1 ≤ (LockFreeRingBuffer.new capacity maxImageSize strategy).capacity := by
    simpa [LockFreeRingBuffer.new] using hcap
  have h := execTrace_balanced ops
    (LockFreeRingBuffer.new capacity maxImageSize strategy) 0 hc h0
  simpa [Balanced, produced_count, consumed_count, dropped_count, len] using h

/-- C1, witness: the amended ledger applied to a concrete `DropNewest` trace
with one rejected reservation. -/
theorem C1_quiescent_ledger_amended_witness :
    1 ≤ 1
    ∧ (execTrace (LockFreeRingBuffer.new 1 8 OverflowStrategy.DropNewest)
          [BufOp.reserve, BufOp.commitWrite 0 1, BufOp.reserve]).produced_count
        + rejectedNewest (LockFreeRingBuffer.new 1 8 OverflowStrategy.DropNewest)
            [BufOp.reserve, BufOp.commitWrite 0 1, BufOp.reserve]
      = (execTrace (LockFreeRingBuffer.new 1 8 OverflowStrategy.DropNewest)
            [BufOp.reserve, BufOp.commitWrite 0 1, BufOp.reserve]).consumed_count
        + (execTrace (LockFreeRingBuffer.new 1 8 OverflowStrategy.DropNewest)
            [BufOp.reserve, BufOp.commitWrite 0 1, BufOp.reserve]).dropped_count
        + (execTrace (LockFreeRingBuffer.new 1 8 OverflowStrategy.DropNewest)
            [BufOp.reserve, BufOp.commitWrite 0 1, BufOp.reserve]).len :=
  ⟨by decide,
   C1_quiescent_ledger_amended 1 8 OverflowStrategy.DropNewest
     [BufOp.reserve, BufOp.commitWrite 0 1, BufOp.reserve] (by decide)⟩

/-- C2: the desync-recovery branch of the processing task never fires, even
at an input where the claimed trigger condition holds.  With
`enable_auto_recovery = true`, a last-acquisition timestamp of 10 s and a
last-processing timestamp of 0 s the spread is 10 000 ms > 1000 ms, yet the
body returns the buffer and both event counters unchanged (and `reset`
would have changed this buffer): the source binds both sides of the
comparison from `last_processing`, so the computed spread is always 0 and
neither the reset nor the `desync_events` / `recovery_events` increments
ever happen. -/
theorem C2_desync_recovery_never_fires :
    1000 < (Timestamp.diff_millis (Timestamp.mk 10 0 0)
        (Timestamp.mk 0 0 1)).natAbs
    ∧ processingEmptyRecovery true (some (Timestamp.mk 10 0 0))
        (some (Timestamp.mk 0 0 1)) desyncDemoBuffer 7 9
      = (desyncDemoBuffer, 7, 9)
    ∧ desyncDemoBuffer.reset ≠ desyncDemoBuffer := by
  refine ⟨by decide, ?_, by decide⟩
  decide

/-- C3, counterexample: on a buffer with one reserved slot (so
`produced_count = 1`), `commit_write 0 5` leaves `produced_count` at 1, not
2 — `commit_write` does not advance the produced counter (the counter is
advanced by `reserve_write_slot`). -/
theorem C3_counterexample_commit_write_produced :
    (((LockFreeRingBuffer.new 1 8 OverflowStrategy.Block).reserve_write_slot).1.commit_write
        0 5).produced_count
      ≠ ((LockFreeRingBuffer.new 1 8 OverflowStrategy.Block).reserve_write_slot).1.produced_count
        + 1 := by
  decide

/-- C3, amended: `commit_write(index, sequence)` stores the sequence into
the slot at `index` and sets its valid flag, and leaves the produced counter
unchanged; the produced counter is advanced by `reserve_write_slot` instead —
by exactly one per successful reservation, and not at all on a failed one. -/
theorem C3_commit_write_amended (b : LockFreeRingBuffer)
    (slot_index sequence : Nat) :
    (b.commit_write slot_index sequence).produced_count = b.produced_count
    ∧ (b.commit_write slot_index sequence).slots.get? slot_index
      = (b.slots.get? slot_index).map
          (fun s => { s with sequence := sequence, valid := true })
    ∧ (b.reserve_write_slot).1.produced_count
      = b.produced_count
        + (if (b.reserve_write_slot).2.isSome then 1 else 0) := by
  refine ⟨rfl, modifySlot_get b.slots slot_index _, ?_⟩
  unfold reserve_write_slot
  by_cases hfull : b.capacity ≤ b.size
  · simp only [if_pos hfull]
    cases hstrat : b.overflowStrategy <;>
      simp [produced_count, reserveProceed, force_advance_tail]
  · simp [hfull, produced_count, reserveProceed]

/-- C4: the derived `Timestamp` ordering is lexicographic with the
wall-clock fields first, so a wall-clock regression reorders timestamps.
With `t1 = (100 s, 0 ns, counter 0)` created before
`t2 = (99 s, 0 ns, counter 1)` (the wall clock stepped back between the two
calls), `t1`'s monotonic counter is smaller but `t1` compares strictly
GREATER than `t2`: the monotonic counter does not act as the claimed
tiebreaker against wall-clock corrections, contradicting the field's own
comment ("compteur monotone pour garantir l'ordre en cas de correction
d'horloge"). -/
theorem C4_wall_clock_regression_reorders :
    (Timestamp.mk 100 0 0).monotonic_counter
      < (Timestamp.mk 99 0 1).monotonic_counter
    ∧ Timestamp.cmp (Timestamp.mk 100 0 0) (Timestamp.mk 99 0 1)
      = Ordering.gt := by
  decide

/-- C5, counterexample: `AcquisitionPipeline::new` accepts a configuration
whose overflow strategy is `Resize` (capacity 4, image size 1024): it
returns `Ok` with a `Resize` ring buffer instead of the claimed
`ConfigError`. -/
theorem C5_counterexample_resize_accepted :
    AcquisitionPipeline.new resizeConfig
      = Except.ok (LockFreeRingBuffer.new 4 1024 OverflowStrategy.Resize) := by
  rfl

/-- C5, amended: `AcquisitionPipeline::new` validates only
`buffer_capacity ≠ 0` and `max_image_size ≠ 0`, so a `Resize` configuration
is accepted and its strategy reaches the running buffer; `Resize` is instead
neutralized at run time: every `reserve_write_slot` on a full `Resize`
buffer fails with a `BufferError` ("not implemented") leaving the buffer
unchanged, so a resize never happens. -/
theorem C5_resize_amended (config : PipelineConfig) (b : LockFreeRingBuffer)
    (hcap : config.buffer_capacity ≠ 0) (hsize : config.max_image_size ≠ 0)
    (hstrat : b.overflowStrategy = OverflowStrategy.Resize)
    (hfull : b.capacity ≤ b.size) :
    AcquisitionPipeline.new config
      = Except.ok (LockFreeRingBuffer.new config.buffer_capacity
          config.max_image_size config.overflow_strategy)
    ∧ b.reserve_write_slot = (b, none) := by
  constructor
  · simp [AcquisitionPipeline.new, hcap, hsize]
  · simp [reserve_write_slot, hstrat, hfull]

/-- C5, witness: the amended statement at the concrete `Resize`
configuration and a concrete full `Resize` buffer. -/
theorem C5_resize_amended_witness :
    resizeConfig.buffer_capacity ≠ 0
    ∧ resizeConfig.max_image_size ≠ 0
    ∧ fullResizeBuffer.overflowStrategy = OverflowStrategy.Resize
    ∧ fullResizeBuffer.capacity ≤ fullResizeBuffer.size
    ∧ fullResizeBuffer.reserve_write_slot = (fullResizeBuffer, none) :=
  ⟨by decide, by decide, by decide, by decide,
   (C5_resize_amended resizeConfig fullResizeBuffer (by decide) (by decide)
     (by decide) (by decide)).2⟩

/-- C6: under `DropOldest`, a reservation on a full buffer (capacity ≥ 1)
always succeeds — it never returns a `BufferError` — and it goes through
`force_advance_tail` first: the slot at `tail % capacity` has its valid flag
cleared, `tail` advances, `size` is decremented, and the dropped counter
increases by exactly one per forced eviction (the subsequent reservation
leaves it untouched, and restores `len` to its pre-call value). -/
theorem C6_drop_oldest_reservation (b : LockFreeRingBuffer)
    (hstrat : b.overflowStrategy = OverflowStrategy.DropOldest)
    (hcap : 1 ≤ b.capacity) (hfull : b.capacity ≤ b.size) :
    (b.reserve_write_slot).2.isSome = true
    ∧ b.reserve_write_slot = reserveProceed b.force_advance_tail
    ∧ (b.force_advance_tail).slots.get? (b.tail % b.capacity)
      = (b.slots.get? (b.tail % b.capacity)).map
          (fun s => { s with valid := false })
    ∧ (b.force_advance_tail).tail = b.tail + 1
    ∧ (b.force_advance_tail).size = b.size - 1
    ∧ (b.force_advance_tail).dropped_count = b.dropped_count + 1
    ∧ (b.reserve_write_slot).1.dropped_count = b.dropped_count + 1
    ∧ (b.reserve_write_slot).1.len = b.len := by
  have hres : b.reserve_write_slot = reserveProceed b.force_advance_tail := by
    simp [reserve_write_slot, hstrat, hfull]
  refine ⟨?_, hres, modifySlot_get b.slots (b.tail % b.capacity) _,
    rfl, rfl, rfl, ?_, ?_⟩
  · rw [hres]; rfl
  · rw [hres]; rfl
  · rw [hres]
    simp only [reserveProceed, force_advance_tail, len, dropped_count]
    omega

/-- C6, witness: the `DropOldest` reservation contract at a concrete full
capacity-1 buffer. -/
theorem C6_drop_oldest_reservation_witness :
    fullDropOldestBuffer.overflowStrategy = OverflowStrategy.DropOldest
    ∧ 1 ≤ fullDropOldestBuffer.capacity
    ∧ fullDropOldestBuffer.capacity ≤ fullDropOldestBuffer.size
    ∧ (fullDropOldestBuffer.reserve_write_slot).2.isSome = true :=
  ⟨by decide, by decide, by decide,
   (C6_drop_oldest_reservation fullDropOldestBuffer (by decide) (by decide)
     (by decide)).1⟩

/-- C7: under `DropNewest`, a reservation on a full buffer returns an error
(`none`) without reserving: `head`, `tail`, `len`, the produced counter and
the slots are unchanged, and the dropped counter increases by exactly
one. -/
theorem C7_drop_newest_rejection (b : LockFreeRingBuffer)
    (hstrat : b.overflowStrategy = OverflowStrategy.DropNewest)
    (hfull : b.capacity ≤ b.size) :
    (b.reserve_write_slot).2 = none
    ∧ (b.reserve_write_slot).1.head = b.head
    ∧ (b.reserve_write_slot).1.tail = b.tail
    ∧ (b.reserve_write_slot).1.len = b.len
    ∧ (b.reserve_write_slot).1.produced_count = b.produced_count
    ∧ (b.reserve_write_slot).1.slots = b.slots
    ∧ (b.reserve_write_slot).1.dropped_count = b.dropped_count + 1 := by
  have hres : b.reserve_write_slot = ({ b with dropped := b.dropped + 1 }, none) := by
    simp [reserve_write_slot, hstrat, hfull]
  rw [hres]
  exact ⟨rfl, rfl, rfl, rfl, rfl, rfl, rfl⟩

/-- C7, witness: the `DropNewest` rejection contract at a concrete full
capacity-1 buffer. -/
theorem C7_drop_newest_rejection_witness :
    fullDropNewestBuffer.overflowStrategy = OverflowStrategy.DropNewest
    ∧ fullDropNewestBuffer.capacity ≤ fullDropNewestBuffer.size
    ∧ (fullDropNewestBuffer.reserve_write_slot).2 = none :=
  ⟨by decide, by decide,
   (C7_drop_newest_rejection fullDropNewestBuffer (by decide) (by decide)).1⟩

/-- C8: the pipeline lifecycle state machine.  Each operation succeeds
exactly from its allowed source states (given its camera / scheduler work
succeeds, abstracted by `ok`) and sets exactly the stated target state;
from any other state it returns an error, under which the source methods
return before writing `self.state`, leaving it unchanged. -/
theorem C8_lifecycle_state_machine (s : PipelineState) (ok : Bool) :
    AcquisitionPipeline.initStep s ok
      = (if s = PipelineState.Uninitialized ∧ ok = true
         then some PipelineState.Ready else none)
    ∧ AcquisitionPipeline.startStep s ok
      = (if (s = PipelineState.Ready ∨ s = PipelineState.Paused) ∧ ok = true
         then some PipelineState.Running else none)
    ∧ AcquisitionPipeline.pauseStep s ok
      = (if s = PipelineState.Running ∧ ok = true
         then some PipelineState.Paused else none)
    ∧ AcquisitionPipeline.stopStep s ok
      = (if (s = PipelineState.Running ∨ s = PipelineState.Paused) ∧ ok = true
         then some PipelineState.Stopped else none) := by
  cases s <;> cases ok <;> decide

/-- C9: `reset()` zeroes `head`, `tail` and `len`, clears the valid flag of
every slot (and of nothing else: the slot list is exactly the old one with
valid flags cleared), and preserves the lifetime counters `produced_count`,
`consumed_count` and `dropped_count`. -/
theorem C9_reset_frame (b : LockFreeRingBuffer) :
    (b.reset).head = 0
    ∧ (b.reset).tail = 0
    ∧ (b.reset).len = 0
    ∧ (b.reset).slots = b.slots.map (fun s => { s with valid := false })
    ∧ (∀ s ∈ (b.reset).slots, s.valid = false)
    ∧ (b.reset).produced_count = b.produced_count
    ∧ (b.reset).consumed_count = b.consumed_count
    ∧ (b.reset).dropped_count = b.dropped_count := by
  refine ⟨rfl, rfl, rfl, rfl, ?_, rfl, rfl, rfl⟩
  intro s hs
  simp only [reset, List.mem_map] at hs
  obtain ⟨t, _, rfl⟩ := hs
  rfl

lemma foldl_acquisition_history (ops : List MetricOp) :
    ∀ m : PipelineMetrics,
      (ops.foldl applyMetricOp m).acquisition_history
        = m.acquisition_history + countAcquisitions ops := by
  induction ops with
  | nil => intro m; simp [countAcquisitions]
  | cons op ops ih =>
    intro m
    cases op <;> simp [applyMetricOp, countAcquisitions, ih]
    all_goals omega

lemma foldl_processing_history (ops : List MetricOp) :
    ∀ m : PipelineMetrics,
      (ops.foldl applyMetricOp m).processing_history
        = m.processing_history + countProcessings ops := by
  induction ops with
  | nil => intro m; simp [countProcessings]
  | cons op ops ih =>
    intro m
    cases op <;> simp [applyMetricOp, countProcessings, ih]
    all_goals omega

/-- C10: after any sequence of recording calls on fresh metrics,
`get_stats` returns 0 for all six totals and for `avg_buffer_usage`,
because the `MetricExt` counter and gauge read-back helpers are stubs
returning 0; only the two rate fields reflect the recorded events — each is
the number of matching events over the 60 s window. -/
theorem C10_get_stats_stubbed (ops : List MetricOp) :
    (get_stats (ops.foldl applyMetricOp PipelineMetrics.new)).total_frames_acquired = 0
    ∧ (get_stats (ops.foldl applyMetricOp PipelineMetrics.new)).total_frames_processed = 0
    ∧ (get_stats (ops.foldl applyMetricOp PipelineMetrics.new)).total_frames_dropped = 0
    ∧ (get_stats (ops.foldl applyMetricOp PipelineMetrics.new)).buffer_overflows = 0
    ∧ (get_stats (ops.foldl applyMetricOp PipelineMetrics.new)).desync_events = 0
    ∧ (get_stats (ops.foldl applyMetricOp PipelineMetrics.new)).recovery_events = 0
    ∧ (get_stats (ops.foldl applyMetricOp PipelineMetrics.new)).avg_buffer_usage = 0
    ∧ (get_stats (ops.foldl applyMetricOp PipelineMetrics.new)).avg_acquisition_rate
      = (countAcquisitions ops : Rat) / (METRICS_WINDOW_SECONDS : Rat)
    ∧ (get_stats (ops.foldl applyMetricOp PipelineMetrics.new)).avg_processing_rate
      = (countProcessings ops : Rat) / (METRICS_WINDOW_SECONDS : Rat) := by
  refine ⟨rfl, rfl, rfl, rfl, rfl, rfl, rfl, ?_, ?_⟩
  · simp [get_stats, foldl_acquisition_history, PipelineMetrics.new]
  · simp [get_stats, foldl_processing_history, PipelineMetrics.new]

end Heimdall
